import Mathlib

/-!
Verification of the control core of the capture-and-upload agent
implemented in `src/eye/agent.py` (class `Agent`).

The Python code is shallowly embedded: every external effect (HTTP
requests, subprocess execution, the system clock, environment
variables) is passed in explicitly as data, and each method of the
`Agent` class becomes a pure Lean function on an explicit
`AgentState`.  Python string case mapping (`str.lower` / `str.upper`)
is modelled character-wise with `Char.toLower` / `Char.toUpper`, which
agrees with CPython on the ASCII strings the agent manipulates.
-/

/-- Python `s.lower()`, modelled as an ASCII character map. -/
def pyToLower (s : String) : String := ⟨s.data.map Char.toLower⟩

/-- Python `s.upper()`, modelled as an ASCII character map. -/
def pyToUpper (s : String) : String := ⟨s.data.map Char.toUpper⟩

/-- Python `s.rstrip(c)` for a single character: drop all trailing occurrences. -/
def rstrip (s : String) (c : Char) : String :=
  ⟨(s.data.reverse.dropWhile (fun d => d == c)).reverse⟩

/-- A configuration patch carried in the JSON body of a 200 upload response
(the optional `config` sub-object with optional `interval`, `format`,
`quality` fields, each already converted by `float` / `str.lower` typing
rules on the Python side; values are modelled well-typed). -/
structure ConfigPatch where
  interval : Option Rat
  format : Option String
  quality : Option Int
deriving DecidableEq

/-- The outcome of one `requests.post` call as seen by `upload_frame`:
either the request raised (connection error / timeout), or a response
with a status code arrived.  `bodyValid` models whether
`response.json()` succeeds and yields an object on which the
subsequent `config` handling does not raise. -/
inductive UploadResult where
  | transportError
  | response (status : Nat) (bodyValid : Bool) (config : Option ConfigPatch)
deriving DecidableEq

/-- The mutable state of an `Agent` object: the fields of `Agent.__init__`
that the control core reads or writes. -/
structure AgentState where
  interval : Rat
  format : String
  quality : Int
  duration : Option Nat
  max_frames : Option Nat
  notify : Bool
  token : Option String
  server_url : String
  frame_id : Nat
  retry_delay : Nat
  os_type : String
  capture_method : String
  running : Bool
  start_time : Option Rat
deriving DecidableEq

/-- The `if "config" in result:` block of `Agent.upload_frame`
(lines 351-370): assign `interval` from `float(...)`, `format` from
`...lower()`, `quality` from `int(...)`, each defaulting to the current
value; no clamping and no whitelist check is performed here. -/
def applyPatch (s : AgentState) (p : ConfigPatch) : AgentState :=
  let s1 := { s with interval := p.interval.getD s.interval }
  let s2 := { s1 with format := pyToLower (p.format.getD s1.format) }
  { s2 with quality := p.quality.getD s2.quality }

/-- The result of one `Agent.upload_frame` call: the updated agent state,
the returned boolean, and the duration of the `time.sleep` performed on
the failure path (`none` when no sleep happened). -/
structure UploadOutcome where
  state : AgentState
  success : Bool
  slept : Option Nat
deriving DecidableEq

/-- The `except` clause of `Agent.upload_frame` (lines 377-382):
sleep for the current `retry_delay`, then double it capped at 30,
and return `False`. -/
def uploadFailure (s : AgentState) : UploadOutcome :=
  { state := { s with retry_delay := min (s.retry_delay * 2) 30 }
    success := false
    slept := some s.retry_delay }

/-- Multipart mime type built at the top of `Agent.upload_frame`:
`image/{self.format}`. -/
def mimeType (s : AgentState) : String := "image/" ++ s.format

/-- Multipart filename built at the top of `Agent.upload_frame`:
`frame.{self.format}`. -/
def uploadFilename (s : AgentState) : String := "frame." ++ s.format

/-- `Agent.upload_frame` (lines 324-382).  On a 200 status the code first
resets `retry_delay` to 1, then parses the body and applies any config
patch and returns `True`; every other path (non-200 status raised as an
exception, transport error, body parse failure) falls into the shared
`except` clause. -/
def upload_frame (s : AgentState) (r : UploadResult) : UploadOutcome :=
  match r with
  | .transportError => uploadFailure s
  | .response status bodyValid config =>
    if status == 200 then
      let s1 := { s with retry_delay := 1 }
      if bodyValid then
        match config with
        | some p => { state := applyPatch s1 p, success := true, slept := none }
        | none => { state := s1, success := true, slept := none }
      else uploadFailure s1
    else uploadFailure s

/-- A run of consecutive `upload_frame` calls: final state plus the
per-call `(returned, slept)` observations. -/
def runUploads (s : AgentState) : List UploadResult → AgentState × List (Bool × Option Nat)
  | [] => (s, [])
  | r :: rs =>
    let o := upload_frame s r
    let rest := runUploads o.state rs
    (rest.1, (o.success, o.slept) :: rest.2)

/-- Whether an upload outcome makes `upload_frame` return `True`:
a 200 status whose body handling succeeds. -/
def isOk200 : UploadResult → Bool
  | .transportError => false
  | .response status bodyValid _ => status == 200 && bodyValid

/-- Whether the HTTP response carried status 200 (regardless of body). -/
def status200 : UploadResult → Bool
  | .transportError => false
  | .response status _ _ => status == 200

/-- Number of results in a run that make `upload_frame` return `True`. -/
def countSuccess (rs : List UploadResult) : Nat := rs.countP (fun r => isOk200 r)

/-- The environment seen by `Agent.detect_mediator`: the `MEDIATOR_URL`
environment variable (`none` when unset, `some ""` when set empty), the
gateway candidate URL that the `/proc/net/route` block appends when it
succeeds on Linux, and for each candidate URL whether the
`requests.get(url + "/health", timeout=1)` probe returns without
raising (status is not inspected there). -/
structure ProbeEnv where
  env_url : Option String
  gateway : Option String
  probeOk : String → Bool

/-- The three fixed discovery candidates of `Agent.detect_mediator`. -/
def baseCandidates : List String :=
  ["http://localhost:8080", "http://mediator:8080", "http://host.docker.internal:8080"]

/-- The full ordered candidate list: the fixed three, plus the gateway
candidate when running on Linux and the route parse succeeded. -/
def candidateUrls (osType : String) (e : ProbeEnv) : List String :=
  baseCandidates ++
    (if osType == "Linux" then (match e.gateway with | some g => [g] | none => []) else [])

/-- The probing loop of `Agent.detect_mediator` (lines 126-132): returns
the first candidate whose probe does not raise, plus the list of
candidates actually probed (in order). -/
def probeLoop (probeOk : String → Bool) : List String → Option String × List String
  | [] => (none, [])
  | u :: us =>
    if probeOk u then (some u, [u])
    else
      let rest := probeLoop probeOk us
      (rest.1, u :: rest.2)

/-- `Agent.detect_mediator` (lines 99-134): result URL plus the list of
probed candidates.  An empty `MEDIATOR_URL` value is falsy in Python,
so probing happens in that case too. -/
def detect_mediator (osType : String) (e : ProbeEnv) : String × List String :=
  let byProbe :=
    let pr := probeLoop e.probeOk (candidateUrls osType e)
    (pr.1.getD "http://localhost:8080", pr.2)
  match e.env_url with
  | some u => if u ≠ "" then (rstrip u '/', []) else byProbe
  | none => byProbe

/-- The environment seen by `Agent._detect_capture_method`: the two
session environment variables, whether the `mss` import succeeded at
module load, and whether the `sct.monitors` probe succeeds. -/
structure PlatformEnv where
  waylandDisplay : Option String
  xdgSessionType : Option String
  mssAvailable : Bool
  mssProbeOk : Bool

/-- The Wayland-session test of `Agent._detect_capture_method` line 142:
`os.environ.get("WAYLAND_DISPLAY")` truthy (set and non-empty), or
`os.environ.get("XDG_SESSION_TYPE") == "wayland"`. -/
def waylandSession (e : PlatformEnv) : Bool :=
  (match e.waylandDisplay with | some w => w ≠ "" | none => false) ||
    (e.xdgSessionType == some "wayland")

/-- `Agent._detect_capture_method` (lines 137-161). -/
def detect_capture_method (osType : String) (e : PlatformEnv) : String :=
  if osType == "Linux" && waylandSession e then "linux_system"
  else if e.mssAvailable && e.mssProbeOk then "mss"
  else if osType == "Darwin" then "macos_screencapture"
  else if osType == "Linux" then "linux_system"
  else "test_pattern"

/-- `Agent.wait_for_server` (lines 164-183), driven by explicit data:
`timeout` is the optional argument (Python treats `0` as falsy),
`elapsed k` is the value of `time.time() - start_time` observed at the
k-th loop check, and `probe200 k` tells whether the k-th health probe
returns status 200 without raising.  The first argument is fuel (the
Python loop may run forever); the result is the returned boolean
(`none` when fuel ran out), the list of sleeps performed, and the
number of attempts made. -/
def wait_for_server (timeout : Option Nat) (elapsed : Nat → Rat) (probe200 : Nat → Bool) :
    Nat → Nat → Option Bool × List Nat × Nat
  | 0, _ => (none, [], 0)
  | fuel + 1, attempt =>
    if (match timeout with
        | some t => decide (t ≠ 0) && decide ((t : Rat) < elapsed attempt)
        | none => false) then
      (some false, [], 0)
    else if probe200 attempt then (some true, [], 1)
    else
      let rest := wait_for_server timeout elapsed probe200 fuel (attempt + 1)
      if (attempt + 1) % 10 == 0 then (rest.1, 2 :: rest.2.1, rest.2.2 + 1)
      else (rest.1, rest.2.1, rest.2.2 + 1)

/-- An in-memory PIL image, abstractly: either an image produced by a
real capture backend, or the synthetic placeholder drawn by
`Agent._generate_test_pattern` (a 1920x1080 fill carrying the platform
name, current frame id and upper-cased format as diagnostic text). -/
inductive Image where
  | captured (id : Nat)
  | pattern (os : String) (frame : Nat) (formatUpper : String)
deriving DecidableEq

/-- Which encoder branch of `Agent._encode_image` serializes the image. -/
inductive EncodeBranch where
  | png
  | webp
  | bmp
  | tiff
  | jpeg
deriving DecidableEq

/-- The branch dispatch of `Agent._encode_image` (lines 218-238): the
first test compares the stored (lowercase) format to `"png"`, the next
three compare its upper-casing to `"WEBP"` / `"BMP"` / `"TIFF"`, and
everything else is saved as JPEG. -/
def encodeBranch (format : String) : EncodeBranch :=
  let fmt := pyToUpper format
  if format == "png" then .png
  else if fmt == "WEBP" then .webp
  else if fmt == "BMP" then .bmp
  else if fmt == "TIFF" then .tiff
  else .jpeg

/-- The encoded bytes produced by `Agent._encode_image`, abstractly: the
source image, the encoder branch taken, and the quality setting in
effect (PIL serialization itself is external and modelled as total). -/
structure Encoded where
  img : Image
  branch : EncodeBranch
  quality : Int
deriving DecidableEq

/-- `Agent._encode_image` (lines 218-238) on the abstract image model. -/
def encode_image (s : AgentState) (img : Image) : Encoded :=
  { img := img, branch := encodeBranch s.format, quality := s.quality }

/-- `Agent._generate_test_pattern` (lines 317-322): always succeeds and
encodes the synthetic placeholder in the configured format. -/
def generate_test_pattern (s : AgentState) : Encoded :=
  encode_image s (Image.pattern s.os_type s.frame_id (pyToUpper s.format))

/-- The capture environment for one `Agent.capture_screen` call: for the
mss grab and for each external screenshot tool, `some img` when that
path ends with a successfully loaded image (tool ran, wrote a non-empty
file, and the file loaded), `none` when it fails for any reason. -/
structure CaptureEnv where
  mssGrab : Option Image
  flameshotOut : Option Image
  gnomeOut : Option Image
  macosOut : Option Image
deriving DecidableEq

/-- `Agent._capture_linux_fallback` (lines 258-300): try `flameshot`
then `gnome-screenshot` in order, re-encode the first image obtained,
and fall back to the test pattern when both fail. -/
def capture_linux_fallback (s : AgentState) (e : CaptureEnv) : Encoded :=
  match e.flameshotOut with
  | some img => encode_image s img
  | none =>
    match e.gnomeOut with
    | some img => encode_image s img
    | none => generate_test_pattern s

/-- `Agent._capture_macos` (lines 303-314): run `screencapture`, and on
any failure return the test pattern. -/
def capture_macos (s : AgentState) (e : CaptureEnv) : Encoded :=
  match e.macosOut with
  | some img => encode_image s img
  | none => generate_test_pattern s

/-- `Agent._capture_mss` (lines 241-255): grab via mss, and on any
exception fall back to the OS-specific tools or the test pattern. -/
def capture_mss (s : AgentState) (e : CaptureEnv) : Encoded :=
  match e.mssGrab with
  | some img => encode_image s img
  | none =>
    if s.os_type == "Linux" then capture_linux_fallback s e
    else if s.os_type == "Darwin" then capture_macos s e
    else generate_test_pattern s

/-- `Agent.capture_screen` (lines 206-215): dispatch on the stored
capture method. -/
def capture_screen (s : AgentState) (e : CaptureEnv) : Encoded :=
  if s.capture_method == "mss" then capture_mss s e
  else if s.capture_method == "linux_system" then capture_linux_fallback s e
  else if s.capture_method == "macos_screencapture" then capture_macos s e
  else generate_test_pattern s

/-- `Agent.stop` (lines 401-407): when running, clear the flag and emit
one summary log (modelled by the frame count it reports); otherwise do
nothing. -/
def stop (s : AgentState) : AgentState × List Nat :=
  if s.running then ({ s with running := false }, [s.frame_id])
  else (s, [])

/-- `Agent._signal_handler` (lines 93-96): both `SIGINT` and `SIGTERM`
call `stop` on the same state. -/
def signal_handler (s : AgentState) : AgentState × List Nat := stop s

/-- `Agent._should_stop` (lines 186-203); `now` is the value of
`datetime.now()` expressed in seconds.  Python truthiness makes a
`duration` or `max_frames` of `0` (and an unset `start_time`) disable
the corresponding limit. -/
def should_stop (s : AgentState) (now : Rat) : Bool :=
  if !s.running then true
  else if (match s.duration, s.start_time with
           | some d, some t0 => decide (d ≠ 0) && decide ((d : Rat) ≤ now - t0)
           | _, _ => false) then true
  else
    match s.max_frames with
    | some m => decide (m ≠ 0) && decide (m ≤ s.frame_id)
    | none => false

/-- How one pass of the `Agent.run` loop ended overall. -/
inductive LoopExit where
  | stopped
  | exhausted
deriving DecidableEq

/-- The `while not self._should_stop():` loop of `Agent.run`
(lines 416-430), driven by a list of upload results (one per
iteration) and a clock giving `datetime.now()` at the k-th stop check:
final state, number of iterations whose upload returned `True`
(each of which increments `frame_id`), and whether the loop exited
because `_should_stop` held or because the supplied results ran out. -/
def runLoop (clock : Nat → Rat) (k : Nat) (s : AgentState) :
    List UploadResult → AgentState × Nat × LoopExit
  | [] => if should_stop s (clock k) then (s, 0, .stopped) else (s, 0, .exhausted)
  | r :: rs =>
    if should_stop s (clock k) then (s, 0, .stopped)
    else
      let o := upload_frame s r
      let s1 := if o.success then { o.state with frame_id := o.state.frame_id + 1 } else o.state
      let rest := runLoop clock (k + 1) s1 rs
      (rest.1, (if o.success then 1 else 0) + rest.2.1, rest.2.2)

/-- The format whitelist of `Agent.__init__` line 59. -/
def allowedFormats : List String := ["png", "jpeg", "jpg", "webp", "bmp", "tiff"]

/-- `Agent.__init__` (lines 32-90): `none` models the `ValueError`
raised on an unsupported format; otherwise the constructed state.
The format is lower-cased, `"jpg"` is normalized to `"jpeg"`, the
quality is clamped into `[1, 100]`, and the server URL comes from the
(truthy) constructor argument or from `detect_mediator`. -/
def mkAgent (server_url : Option String) (token : Option String) (interval : Rat)
    (format : String) (quality : Int) (duration : Option Nat) (max_frames : Option Nat)
    (notify : Bool) (osType : String) (penv : ProbeEnv) (cenv : PlatformEnv) :
    Option AgentState :=
  let fmt0 := pyToLower format
  if fmt0 ∈ allowedFormats then
    let fmt1 := if fmt0 == "jpg" then "jpeg" else fmt0
    let url :=
      match server_url with
      | some u => if u ≠ "" then rstrip u '/' else (detect_mediator osType penv).1
      | none => (detect_mediator osType penv).1
    some { interval := interval
           format := fmt1
           quality := max 1 (min 100 quality)
           duration := duration
           max_frames := max_frames
           notify := notify
           token := token
           server_url := url
           frame_id := 0
           retry_delay := 1
           os_type := osType
           capture_method := detect_capture_method osType cenv
           running := false
           start_time := none }
  else none

/-! ### Helper lemmas -/

lemma upload_frame_success (s : AgentState) (r : UploadResult) :
    (upload_frame s r).success = isOk200 r := by
  cases r with
  | transportError => rfl
  | response st b c =>
    by_cases h : st = 200
    · subst h
      cases b with
      | true => cases c <;> simp [upload_frame, isOk200]
      | false => simp [upload_frame, isOk200, uploadFailure]
    · simp [upload_frame, isOk200, uploadFailure, h]

lemma applyPatch_preserves (s : AgentState) (p : ConfigPatch) :
    (applyPatch s p).running = s.running ∧ (applyPatch s p).duration = s.duration ∧
    (applyPatch s p).max_frames = s.max_frames ∧ (applyPatch s p).frame_id = s.frame_id ∧
    (applyPatch s p).start_time = s.start_time ∧ (applyPatch s p).retry_delay = s.retry_delay := by
  simp [applyPatch]

lemma upload_frame_preserves (s : AgentState) (r : UploadResult) :
    (upload_frame s r).state.running = s.running ∧
    (upload_frame s r).state.duration = s.duration ∧
    (upload_frame s r).state.max_frames = s.max_frames ∧
    (upload_frame s r).state.frame_id = s.frame_id ∧
    (upload_frame s r).state.start_time = s.start_time := by
  cases r with
  | transportError => simp [upload_frame, uploadFailure]
  | response st b c =>
    by_cases h : st = 200
    · subst h
      cases b with
      | true => cases c <;> simp [upload_frame, uploadFailure, applyPatch]
      | false => simp [upload_frame, uploadFailure]
    · simp [upload_frame, uploadFailure, h]

/-- A discovery environment with no override and all probes failing. -/
def sampleProbeEnv : ProbeEnv :=
  { env_url := none, gateway := none, probeOk := fun _ => false }

/-- A platform environment with no Wayland session and no mss library. -/
def samplePlatformEnv : PlatformEnv :=
  { waylandDisplay := none, xdgSessionType := none, mssAvailable := false, mssProbeOk := false }

/-- The agent state produced by
`mkAgent (some "http://x/") none 1 "png" 95 none none true "Windows" sampleProbeEnv samplePlatformEnv`,
used as a concrete evaluation point. -/
def sampleAgent : AgentState :=
  { interval := 1
    format := "png"
    quality := 95
    duration := none
    max_frames := none
    notify := true
    token := none
    server_url := "http://x"
    frame_id := 0
    retry_delay := 1
    os_type := "Windows"
    capture_method := "test_pattern"
    running := false
    start_time := none }

lemma probeLoop_fst (p : String → Bool) (l : List String) :
    (probeLoop p l).1 = l.find? p := by
  induction l with
  | nil => rfl
  | cons u us ih =>
    by_cases h : p u <;> simp [probeLoop, List.find?, h, ih]

lemma probeLoop_all_fail (p : String → Bool) (l : List String)
    (h : ∀ c ∈ l, p c = false) : probeLoop p l = (none, l) := by
  induction l with
  | nil => rfl
  | cons u us ih =>
    have hu : p u = false := h u (by simp)
    have ih2 := ih (fun c hc => h c (by simp [hc]))
    simp [probeLoop, hu, ih2]

/-! ### C9 -/

/-- C9: stopping is idempotent.  For every agent state, a second `stop`
call (directly or through the signal handler) leaves the state of the
first `stop` unchanged and emits no further summary log, and when the
agent was running, the two calls together emit exactly one summary log
(reporting the frame counter). -/
theorem C9_stop_idempotent (s : AgentState) :
    stop (stop s).1 = ((stop s).1, ([] : List Nat)) ∧
    signal_handler (signal_handler s).1 = ((signal_handler s).1, ([] : List Nat)) ∧
    (s.running = true → (stop s).2 ++ (stop (stop s).1).2 = [s.frame_id]) := by
  unfold signal_handler stop
  by_cases h : s.running <;> simp [h]

/-- C9 witness: on a concrete running agent, two stop calls emit exactly
one summary log. -/
theorem C9_witness :
    ({ sampleAgent with running := true } : AgentState).running = true ∧
    (stop { sampleAgent with running := true }).2 ++
      (stop (stop { sampleAgent with running := true }).1).2 = [0] :=
  ⟨rfl, (C9_stop_idempotent { sampleAgent with running := true }).2.2 rfl⟩

/-! ### C2 -/

/-- C2 counterexample: an HTTP 200 response whose body fails to parse as
JSON makes `upload_frame` return failure, so success is not equivalent
to status 200. -/
theorem C2_counterexample :
    status200 (.response 200 false none) = true ∧
    (upload_frame sampleAgent (.response 200 false none)).success = false := by
  decide

/-- C2 (amended): `upload_frame` returns success iff the response has
status 200 and its body handling succeeds; every non-200 outcome takes
the shared failure path, and every failure return sleeps first — for
the backoff delay, except that a 200 response with a bad body sleeps
the just-reset delay of 1. -/
theorem C2_upload_success_criterion (s : AgentState) (r : UploadResult) :
    ((upload_frame s r).success = true ↔ isOk200 r = true) ∧
    (status200 r = false → upload_frame s r = uploadFailure s) ∧
    ((upload_frame s r).success = false →
      (upload_frame s r).slept = some (if status200 r then 1 else s.retry_delay)) := by
  refine ⟨by rw [upload_frame_success], ?_, ?_⟩
  · intro h
    cases r with
    | transportError => rfl
    | response st b c =>
      have hst : (st == 200) = false := by simpa [status200] using h
      simp [upload_frame, hst]
  · intro h
    cases r with
    | transportError => simp [upload_frame, uploadFailure, status200]
    | response st b c =>
      by_cases hst : st = 200
      · subst hst
        cases b with
        | true =>
          cases c <;> simp [upload_frame] at h
        | false => simp [upload_frame, uploadFailure, status200]
      · simp [upload_frame, uploadFailure, status200, hst]

/-- C2 witness: a concrete transport error returns failure and sleeps
the current backoff delay. -/
theorem C2_witness :
    (upload_frame sampleAgent .transportError).success = false ∧
    (upload_frame sampleAgent .transportError).slept =
      some (if status200 .transportError then 1 else sampleAgent.retry_delay) :=
  ⟨by decide, (C2_upload_success_criterion sampleAgent .transportError).2.2 (by decide)⟩

/-! ### C4 -/

/-- C4 counterexample: a server patch carrying `quality = 500` is stored
verbatim on an agent constructed with quality 95, leaving the quality
field outside `[1, 100]`. -/
theorem C4_counterexample :
    ((mkAgent (some "http://x/") none 1 "png" 95 none none true "Windows"
        sampleProbeEnv samplePlatformEnv).map
      (fun a => (upload_frame a
        (.response 200 true (some { interval := none, format := none, quality := some 500 }))).state.quality))
      = some 500 ∧
    ¬ ((500 : Int) ≤ 100) := by
  constructor
  · rfl
  · decide

/-- C4 (amended): the constructor clamps quality into `[1, 100]`, but a
server-issued patch carrying a quality value assigns it verbatim with
no clamping, so the range invariant survives only until such a patch
arrives. -/
theorem C4_quality_clamp (su tok : Option String) (iv : Rat) (f : String) (q : Int)
    (du mf : Option Nat) (nf : Bool) (os : String) (pe : ProbeEnv) (ce : PlatformEnv)
    (a : AgentState) (h : mkAgent su tok iv f q du mf nf os pe ce = some a) :
    (1 ≤ a.quality ∧ a.quality ≤ 100) ∧
    (∀ s p n, p.quality = some n → (applyPatch s p).quality = n) := by
  constructor
  · unfold mkAgent at h
    by_cases hf : pyToLower f ∈ allowedFormats
    · rw [if_pos hf] at h
      have ha : a.quality = max 1 (min 100 q) := by
        cases h
        rfl
      rw [ha]
      constructor
      · exact le_max_left 1 (min 100 q)
      · exact max_le (by norm_num) (min_le_left 100 q)
    · rw [if_neg hf] at h
      cases h
  · intro s p n hp
    simp [applyPatch, hp]

/-- C4 witness: the concrete construction stays in range, and a concrete
patch value 7 is stored verbatim. -/
theorem C4_witness :
    (1 ≤ sampleAgent.quality ∧ sampleAgent.quality ≤ 100) ∧
    (applyPatch sampleAgent { interval := none, format := none, quality := some 7 }).quality = 7 :=
  ⟨(C4_quality_clamp (some "http://x/") none 1 "png" 95 none none true "Windows"
      sampleProbeEnv samplePlatformEnv sampleAgent (by rfl)).1,
   (C4_quality_clamp (some "http://x/") none 1 "png" 95 none none true "Windows"
      sampleProbeEnv samplePlatformEnv sampleAgent (by rfl)).2
     sampleAgent { interval := none, format := none, quality := some 7 } 7 rfl⟩

/-! ### C6 -/

/-- A discovery environment whose override variable is set to the empty
string, with every probe failing. -/
def emptyEnvProbe : ProbeEnv :=
  { env_url := some "", gateway := none, probeOk := fun _ => false }

/-- C6 counterexample: with the override environment variable set to the
empty string (falsy in Python), candidate probing does occur and the
returned URL is the default, not the stripped override value. -/
theorem C6_counterexample :
    emptyEnvProbe.env_url = some "" ∧
    detect_mediator "Linux" emptyEnvProbe = ("http://localhost:8080", baseCandidates) ∧
    (detect_mediator "Linux" emptyEnvProbe).2 ≠ [] ∧
    rstrip "" '/' = "" := by
  refine ⟨rfl, by rfl, by decide, rfl⟩

/-- C6 (amended): endpoint resolution never raises; when the override
variable is set to a non-empty value, that value with trailing slashes
stripped is returned and nothing is probed; otherwise (unset, or set
empty) the ordered candidate list is probed and the first candidate
whose probe does not raise is returned, and if every probe fails the
fixed default URL is returned after probing the whole list. -/
theorem C6_detect_mediator_spec (os : String) (e : ProbeEnv) :
    (∀ u, e.env_url = some u → u ≠ "" → detect_mediator os e = (rstrip u '/', [])) ∧
    ((e.env_url = none ∨ e.env_url = some "") →
      (detect_mediator os e).1 = ((candidateUrls os e).find? e.probeOk).getD "http://localhost:8080") ∧
    ((e.env_url = none ∨ e.env_url = some "") →
      (∀ c ∈ candidateUrls os e, e.probeOk c = false) →
      detect_mediator os e = ("http://localhost:8080", candidateUrls os e)) := by
  refine ⟨?_, ?_, ?_⟩
  · intro u hu hne
    simp [detect_mediator, hu, hne]
  · intro h
    rcases h with h | h <;>
      simp [detect_mediator, h, probeLoop_fst]
  · intro h hall
    have hpl := probeLoop_all_fail e.probeOk (candidateUrls os e) hall
    rcases h with h | h <;>
      simp [detect_mediator, h, hpl]

/-- A discovery environment whose override variable carries the spec
example URL with a trailing slash. -/
def exampleEnvProbe : ProbeEnv :=
  { env_url := some "http://example:9999/", gateway := none, probeOk := fun _ => false }

/-- C6 witness: the spec example URL with a trailing slash, set in the
override variable, is used as-is after stripping with no probing; and a
concrete all-fail probe run returns the default. -/
theorem C6_witness :
    detect_mediator "Linux" exampleEnvProbe = ("http://example:9999", []) ∧
    detect_mediator "Windows" sampleProbeEnv = ("http://localhost:8080", baseCandidates) :=
  ⟨(C6_detect_mediator_spec "Linux" _).1 "http://example:9999/" rfl (by decide),
   by
    have h := (C6_detect_mediator_spec "Windows" sampleProbeEnv).2.2 (Or.inl rfl)
      (fun c _ => rfl)
    simpa [candidateUrls, sampleProbeEnv] using h⟩

/-! ### C7 -/

/-- The one-time capture-strategy selection exactly as the claim states
it: (a) Wayland-style session on Linux selects the system tool chain;
(b) else a working capture library selects the library backend; (c)
else the platform with the native capture utility (macOS) selects the
native tool; (d) else the synthetic fallback. -/
def claimedCaptureMethod (osType : String) (e : PlatformEnv) : String :=
  if osType == "Linux" && waylandSession e then "linux_system"
  else if e.mssAvailable && e.mssProbeOk then "mss"
  else if osType == "Darwin" then "macos_screencapture"
  else "test_pattern"

/-- A Linux environment with no Wayland session and no usable mss. -/
def linuxBarePlatform : PlatformEnv :=
  { waylandDisplay := none, xdgSessionType := none, mssAvailable := false, mssProbeOk := false }

/-- C7 counterexample: on Linux with no Wayland session and no usable
capture library, the code selects the system tool chain, not the
synthetic fallback the claimed priority order predicts. -/
theorem C7_counterexample :
    detect_capture_method "Linux" linuxBarePlatform = "linux_system" ∧
    claimedCaptureMethod "Linux" linuxBarePlatform = "test_pattern" ∧
    detect_capture_method "Linux" linuxBarePlatform ≠
      claimedCaptureMethod "Linux" linuxBarePlatform := by
  refine ⟨rfl, rfl, by decide⟩

/-- The capture-strategy selection with the amended priority order: as
claimed, except that a Linux host whose library probe fails falls back
to the system tool chain rather than to the synthetic fallback, which
is reserved for platforms with no capture path at all. -/
def amendedCaptureMethod (osType : String) (e : PlatformEnv) : String :=
  if osType == "Linux" then
    (if waylandSession e then "linux_system"
     else if e.mssAvailable && e.mssProbeOk then "mss"
     else "linux_system")
  else if e.mssAvailable && e.mssProbeOk then "mss"
  else if osType == "Darwin" then "macos_screencapture"
  else "test_pattern"

/-- C7 (amended): `_detect_capture_method` implements the amended
priority order over every platform and environment input: Wayland on
Linux, then the capture library, then the macOS native tool, then the
Linux system tool chain, then the synthetic fallback. -/
theorem C7_capture_method_priority (osType : String) (e : PlatformEnv) :
    detect_capture_method osType e = amendedCaptureMethod osType e := by
  unfold detect_capture_method amendedCaptureMethod
  by_cases hLin : osType = "Linux"
  · subst hLin
    by_cases hway : waylandSession e <;>
      by_cases hm : e.mssAvailable && e.mssProbeOk <;>
        simp [hway, hm]
  · have hL : (osType == "Linux") = false := by
      simpa using hLin
    by_cases hm : e.mssAvailable && e.mssProbeOk <;>
      by_cases hDar : osType = "Darwin" <;>
        simp [hL, hm, hDar]

/-! ### C3 -/

/-- C3: `capture_screen` is total-failure-proof.  Under every selected
strategy and every capture environment it returns the encoding of some
image — no capture failure escapes — and when every real backend
(library grab, both external tools, the native tool) fails, the result
is exactly the synthetic test pattern. -/
theorem C3_capture_total (s : AgentState) (e : CaptureEnv) :
    (∃ img : Image, capture_screen s e = encode_image s img) ∧
    (e.mssGrab = none → e.flameshotOut = none → e.gnomeOut = none → e.macosOut = none →
      capture_screen s e = generate_test_pattern s) := by
  constructor
  · unfold capture_screen capture_mss capture_linux_fallback capture_macos
      generate_test_pattern
    rcases e with ⟨mg, fo, go, mo⟩
    dsimp only
    by_cases h1 : s.capture_method == "mss" <;>
      by_cases h2 : s.capture_method == "linux_system" <;>
        by_cases h3 : s.capture_method == "macos_screencapture" <;>
          cases mg <;> cases fo <;> cases go <;> cases mo <;>
            simp [h1, h2, h3] <;>
              first
              | exact ⟨_, rfl⟩
              | (split_ifs <;> exact ⟨_, rfl⟩)
  · intro h1 h2 h3 h4
    unfold capture_screen capture_mss capture_linux_fallback capture_macos
    rw [h1, h2, h3, h4]
    by_cases hm1 : s.capture_method == "mss" <;>
      by_cases hm2 : s.capture_method == "linux_system" <;>
        by_cases hm3 : s.capture_method == "macos_screencapture" <;>
          simp [hm1, hm2, hm3]

/-- An environment in which every capture backend fails. -/
def allFailCapture : CaptureEnv :=
  { mssGrab := none, flameshotOut := none, gnomeOut := none, macosOut := none }

/-- C3 witness: on a concrete Linux agent using the mss strategy with
every backend failing, capture still returns an encoding — the test
pattern. -/
theorem C3_witness :
    capture_screen { sampleAgent with os_type := "Linux", capture_method := "mss" }
        allFailCapture =
      generate_test_pattern { sampleAgent with os_type := "Linux", capture_method := "mss" } ∧
    (∃ img : Image,
      capture_screen { sampleAgent with os_type := "Linux", capture_method := "mss" }
          allFailCapture =
        encode_image { sampleAgent with os_type := "Linux", capture_method := "mss" } img) :=
  ⟨(C3_capture_total _ allFailCapture).2 rfl rfl rfl rfl,
   (C3_capture_total _ allFailCapture).1⟩

/-! ### C1 -/

lemma backoff_double (j : Nat) : min (min (2 ^ j) 30 * 2) 30 = min (2 ^ (j + 1)) 30 := by
  have h : 2 ^ (j + 1) = 2 ^ j * 2 := pow_succ 2 j
  omega

lemma runUploads_replicate_fail (n : Nat) : ∀ (j : Nat) (s : AgentState),
    s.retry_delay = min (2 ^ j) 30 →
    (runUploads s (List.replicate n .transportError)).2 =
      (List.range n).map (fun i => (false, some (min (2 ^ (j + i)) 30))) ∧
    (runUploads s (List.replicate n .transportError)).1.retry_delay =
      min (2 ^ (j + n)) 30 := by
  induction n with
  | zero =>
    intro j s hs
    simpa [runUploads] using hs
  | succ n ih =>
    intro j s hs
    have hdelay : (uploadFailure s).state.retry_delay = min (2 ^ (j + 1)) 30 := by
      simp [uploadFailure, hs, backoff_double]
    have ihj := ih (j + 1) (uploadFailure s).state hdelay
    have hshift : ∀ i : Nat, j + 1 + i = j + (i + 1) := fun i => by omega
    constructor
    · simp only [List.replicate_succ, runUploads, upload_frame]
      rw [List.range_succ_eq_map]
      simp only [List.map_cons, List.map_map, Function.comp, Nat.succ_eq_add_one]
      have h1 := ihj.1
      simp only [hshift] at h1
      rw [h1]
      simp [uploadFailure, hs]
    · simp only [List.replicate_succ, runUploads, upload_frame]
      have h2 := ihj.2
      have hjn : j + 1 + n = j + (n + 1) := by omega
      rw [hjn] at h2
      exact h2

/-- C1 counterexample: after two failures the delay is 4, yet a third
failing call — an HTTP 200 whose body does not parse — sleeps only 1
second (the delay was reset before the body was read) and leaves the
delay at 2, so a call that returns failure did reset the delay. -/
theorem C1_counterexample :
    (runUploads sampleAgent [.transportError, .transportError]).1.retry_delay = 4 ∧
    (upload_frame (runUploads sampleAgent [.transportError, .transportError]).1
        (.response 200 false none)).success = false ∧
    (upload_frame (runUploads sampleAgent [.transportError, .transportError]).1
        (.response 200 false none)).slept = some 1 ∧
    some (1 : Nat) ≠ some 4 ∧
    (runUploads sampleAgent
        [.transportError, .transportError, .response 200 false none]).2 =
      [(false, some 1), (false, some 2), (false, some 1)] := by
  decide

/-- C1 (amended): starting from the initial delay of 1, a run of pure
non-200 failures sleeps exactly 1, 2, 4, 8, 16, 30, 30, 30, ...; every
200 response whose body parses resets the next delay to 1; every
failing call whose response was not a 200 sleeps exactly the current
delay and doubles it capped at 30; but a failing call whose response
was a 200 with a bad body has already reset the delay, sleeps 1, and
leaves the delay at 2. -/
theorem C1_backoff (s : AgentState) :
    (s.retry_delay = 1 →
      ∀ n, (runUploads s (List.replicate n .transportError)).2 =
        (List.range n).map (fun i => (false, some (min (2 ^ i) 30)))) ∧
    (∀ p, (upload_frame s (.response 200 true p)).state.retry_delay = 1) ∧
    (∀ r, status200 r = false →
      (upload_frame s r).slept = some s.retry_delay ∧
      (upload_frame s r).state.retry_delay = min (s.retry_delay * 2) 30) ∧
    (∀ p, (upload_frame s (.response 200 false p)).success = false ∧
      (upload_frame s (.response 200 false p)).slept = some 1 ∧
      (upload_frame s (.response 200 false p)).state.retry_delay = 2) := by
  refine ⟨?_, ?_, ?_, ?_⟩
  · intro hs n
    have h0 : s.retry_delay = min (2 ^ 0) 30 := by
      rw [hs]
      norm_num
    have h := (runUploads_replicate_fail n 0 s h0).1
    simpa using h
  · intro p
    cases p <;> simp [upload_frame, applyPatch]
  · intro r hr
    cases r with
    | transportError => simp [upload_frame, uploadFailure]
    | response st b c =>
      have hst : (st == 200) = false := by simpa [status200] using hr
      simp [upload_frame, hst, uploadFailure]
  · intro p
    simp [upload_frame, uploadFailure]

/-- C1 witness: the initial agent has delay 1, three consecutive
transport failures sleep 1, 2, 4, and a parsed 200 resets the delay. -/
theorem C1_witness :
    sampleAgent.retry_delay = 1 ∧
    (runUploads sampleAgent (List.replicate 3 .transportError)).2 =
      (List.range 3).map (fun i => (false, some (min (2 ^ i) 30))) ∧
    (upload_frame sampleAgent (.response 200 true none)).state.retry_delay = 1 :=
  ⟨rfl, (C1_backoff sampleAgent).1 rfl 3, (C1_backoff sampleAgent).2.1 none⟩

/-! ### C5 -/

lemma should_stop_frames_only (s : AgentState) (now : Rat) (m : Nat)
    (hr : s.running = true) (hd : s.duration = none) (hm : s.max_frames = some m)
    (hm0 : m ≠ 0) : should_stop s now = decide (m ≤ s.frame_id) := by
  simp [should_stop, hr, hd, hm, hm0]

lemma countSuccess_cons (r : UploadResult) (rs : List UploadResult) :
    countSuccess (r :: rs) = countSuccess rs + (if isOk200 r then 1 else 0) := by
  simp [countSuccess, List.countP_cons]

lemma runLoop_spec (m : Nat) (hm0 : m ≠ 0) :
    ∀ (rs : List UploadResult) (clock : Nat → Rat) (k : Nat) (s : AgentState),
      s.running = true → s.duration = none → s.max_frames = some m →
      (runLoop clock k s rs).2.1 = min (m - s.frame_id) (countSuccess rs) ∧
      (runLoop clock k s rs).1.frame_id = s.frame_id + (runLoop clock k s rs).2.1 ∧
      ((runLoop clock k s rs).2.2 = .stopped ↔ m - s.frame_id ≤ countSuccess rs) := by
  intro rs
  induction rs with
  | nil =>
    intro clock k s hr hd hm
    have hss := should_stop_frames_only s (clock k) m hr hd hm hm0
    have hc0 : countSuccess [] = 0 := rfl
    by_cases h : m ≤ s.frame_id
    · have hstop : should_stop s (clock k) = true := by
        rw [hss]
        simpa using h
      simp only [runLoop, hstop, if_true]
      refine ⟨by omega, by omega, ?_⟩
      constructor
      · intro _
        omega
      · intro _
        trivial
    · have hstop : should_stop s (clock k) = false := by
        rw [hss]
        simpa using h
      simp only [runLoop, hstop, Bool.false_eq_true, if_false]
      refine ⟨by omega, by omega, ?_⟩
      constructor
      · intro hciff
        cases hciff
      · intro hle
        omega
  | cons r rs ih =>
    intro clock k s hr hd hm
    have hss := should_stop_frames_only s (clock k) m hr hd hm hm0
    have hp := upload_frame_preserves s r
    have hf := hp.2.2.2.1
    have hsucc := upload_frame_success s r
    have hc := countSuccess_cons r rs
    by_cases h : m ≤ s.frame_id
    · have hstop : should_stop s (clock k) = true := by
        rw [hss]
        simpa using h
      simp only [runLoop, hstop, if_true]
      refine ⟨by omega, by omega, ?_⟩
      constructor
      · intro _
        omega
      · intro _
        trivial
    · have hstop : should_stop s (clock k) = false := by
        rw [hss]
        simpa using h
      by_cases hb : isOk200 r = true
      · have ho : (upload_frame s r).success = true := by
          rw [hsucc]
          exact hb
        rw [hb, if_pos rfl] at hc
        simp only [runLoop, hstop, Bool.false_eq_true, if_false, ho, if_true]
        have h1 := ih clock (k + 1)
          { (upload_frame s r).state with frame_id := (upload_frame s r).state.frame_id + 1 }
          (hp.1.trans hr) (hp.2.1.trans hd) (hp.2.2.1.trans hm)
        dsimp only at h1
        refine ⟨?_, ?_, ?_⟩
        · rw [hc]
          omega
        · omega
        · rw [h1.2.2, hc]
          omega
      · have hbf : isOk200 r = false := by
          simpa using hb
        have ho : (upload_frame s r).success = false := by
          rw [hsucc]
          exact hbf
        rw [hbf] at hc
        simp only [if_neg (by simp : ¬ (false = true))] at hc
        simp only [runLoop, hstop, Bool.false_eq_true, if_false, ho]
        have h1 := ih clock (k + 1) (upload_frame s r).state
          (hp.1.trans hr) (hp.2.1.trans hd) (hp.2.2.1.trans hm)
        refine ⟨?_, ?_, ?_⟩
        · rw [hc]
          omega
        · omega
        · rw [h1.2.2, hc]
          omega

/-- C5: the frame counter starts at 0 at construction, and in the main
loop it is incremented exactly on successful uploads.  With
`max_frames = 3` (and no duration limit), for every interleaving of
failed uploads the loop performs `min 3 (successes available)`
successful uploads, the final counter equals that number, and the loop
reaches the stop condition exactly when 3 successes occurred. -/
theorem C5_max_frames :
    (∀ su tok iv f q du mf nf os pe ce a,
      mkAgent su tok iv f q du mf nf os pe ce = some a → a.frame_id = 0) ∧
    (∀ (clock : Nat → Rat) (k : Nat) (s : AgentState) (rs : List UploadResult),
      s.running = true → s.duration = none → s.max_frames = some 3 → s.frame_id = 0 →
      (runLoop clock k s rs).2.1 = min 3 (countSuccess rs) ∧
      (runLoop clock k s rs).1.frame_id = (runLoop clock k s rs).2.1 ∧
      ((runLoop clock k s rs).2.2 = .stopped ↔ 3 ≤ countSuccess rs)) := by
  constructor
  · intro su tok iv f q du mf nf os pe ce a h
    unfold mkAgent at h
    by_cases hf : pyToLower f ∈ allowedFormats
    · rw [if_pos hf] at h
      cases h
      rfl
    · rw [if_neg hf] at h
      cases h
  · intro clock k s rs hr hd hm h0
    have h := runLoop_spec 3 (by norm_num) rs clock k s hr hd hm
    rw [h0] at h
    simpa using h

/-- C5 witness: the concrete construction starts the counter at 0, and a
concrete run with three successes interleaved among failures performs
exactly three successful uploads and stops. -/
theorem C5_witness :
    sampleAgent.frame_id = 0 ∧
    (runLoop (fun _ => 0) 0 { sampleAgent with running := true, max_frames := some 3 }
        [.response 200 true none, .transportError, .response 200 true none,
          .response 200 true none, .transportError]).2.1 =
      min 3 (countSuccess [.response 200 true none, .transportError, .response 200 true none,
          .response 200 true none, .transportError]) ∧
    ((runLoop (fun _ => 0) 0 { sampleAgent with running := true, max_frames := some 3 }
        [.response 200 true none, .transportError, .response 200 true none,
          .response 200 true none, .transportError]).2.2 = .stopped ↔
      3 ≤ countSuccess [.response 200 true none, .transportError, .response 200 true none,
          .response 200 true none, .transportError]) :=
  ⟨C5_max_frames.1 (some "http://x/") none 1 "png" 95 none none true "Windows"
      sampleProbeEnv samplePlatformEnv sampleAgent (by decide),
   (C5_max_frames.2 (fun _ => 0) 0 _ _ rfl rfl rfl rfl).1,
   (C5_max_frames.2 (fun _ => 0) 0 _ _ rfl rfl rfl rfl).2.2⟩

/-! ### C8 -/

lemma wait_first_success (elapsed : Nat → Rat) (probe200 : Nat → Bool) :
    ∀ (j fuel att : Nat), j < fuel →
      (∀ i, i < j → probe200 (att + i) = false) → probe200 (att + j) = true →
      wait_for_server none elapsed probe200 fuel att =
        (some true,
          List.replicate ((List.range j).countP (fun i => (att + i + 1) % 10 == 0)) 2,
          j + 1) := by
  intro j
  induction j with
  | zero =>
    intro fuel att hfuel _ hsucc
    obtain ⟨fuel1, rfl⟩ : ∃ f, fuel = f + 1 := ⟨fuel - 1, by omega⟩
    rw [Nat.add_zero] at hsucc
    simp [wait_for_server, hsucc]
  | succ j ih =>
    intro fuel att hfuel hfail hsucc
    obtain ⟨fuel1, rfl⟩ : ∃ f, fuel = f + 1 := ⟨fuel - 1, by omega⟩
    have h0 : probe200 att = false := by
      have := hfail 0 (by omega)
      simpa using this
    have hrec := ih fuel1 (att + 1) (by omega)
      (fun i hi => by
        have := hfail (i + 1) (by omega)
        simpa [Nat.add_assoc, Nat.add_comm, Nat.add_left_comm] using this)
      (by
        have h1 : att + 1 + j = att + (j + 1) := by omega
        rw [h1]
        exact hsucc)
    have hcount : (List.range (j + 1)).countP (fun i => (att + i + 1) % 10 == 0) =
        ((List.range j).countP (fun i => (att + 1 + i + 1) % 10 == 0)) +
          (if (att + 1) % 10 == 0 then 1 else 0) := by
      rw [List.range_succ_eq_map, List.countP_cons, List.countP_map]
      have hpq : ∀ x ∈ List.range j,
          (((fun i => (att + i + 1) % 10 == 0) ∘ Nat.succ) x = true ↔
            (fun i => (att + 1 + i + 1) % 10 == 0) x = true) := by
        intro x _
        simp only [Function.comp]
        have h2 : att + Nat.succ x + 1 = att + 1 + x + 1 := by omega
        rw [h2]
      rw [List.countP_congr hpq]
    simp only [wait_for_server, h0, Bool.false_eq_true, if_false]
    rw [hrec]
    by_cases hmod : (att + 1) % 10 == 0
    · simp only [hmod, if_true]
      rw [hcount]
      simp [hmod, List.replicate_succ, Nat.add_comm]
      rw [Nat.add_comm 1, List.replicate_succ]
    · simp only [hmod, Bool.false_eq_true, if_false]
      rw [hcount]
      simp [hmod]

lemma wait_timeout_elapses (elapsed : Nat → Rat) (probe200 : Nat → Bool) (t : Nat)
    (ht : t ≠ 0) :
    ∀ (j fuel att : Nat), j < fuel →
      (∀ i, i < j → probe200 (att + i) = false ∧ ¬ ((t : Rat) < elapsed (att + i))) →
      (t : Rat) < elapsed (att + j) →
      (wait_for_server (some t) elapsed probe200 fuel att).1 = some false := by
  intro j
  induction j with
  | zero =>
    intro fuel att hfuel _ htime
    obtain ⟨fuel1, rfl⟩ : ∃ f, fuel = f + 1 := ⟨fuel - 1, by omega⟩
    rw [Nat.add_zero] at htime
    simp [wait_for_server, ht, htime]
  | succ j ih =>
    intro fuel att hfuel hfail htime
    obtain ⟨fuel1, rfl⟩ : ∃ f, fuel = f + 1 := ⟨fuel - 1, by omega⟩
    have h0 := hfail 0 (by omega)
    rw [Nat.add_zero] at h0
    have hrec := ih fuel1 (att + 1) (by omega)
      (fun i hi => by
        have := hfail (i + 1) (by omega)
        simpa [Nat.add_assoc, Nat.add_comm, Nat.add_left_comm] using this)
      (by
        have h1 : att + 1 + j = att + (j + 1) := by omega
        rw [h1]
        exact htime)
    simp only [wait_for_server, h0.1, Bool.false_eq_true, if_false, ht, h0.2]
    rw [if_neg (by simp [ht, h0.2])]
    by_cases hmod : (att + 1) % 10 == 0 <;> simp [hmod, hrec]

/-- C8 counterexample: with the server answering 200 on the fourth
attempt, `wait_for_server` makes 4 attempts separated by no sleep at
all — the fixed 2-second sleep happens only after every tenth attempt,
not between consecutive attempts. -/
theorem C8_counterexample :
    wait_for_server none (fun _ => 0) (fun k => decide (3 ≤ k)) 10 0 = (some true, [], 4) ∧
    (wait_for_server none (fun _ => 0) (fun k => decide (3 ≤ k)) 10 0).2.1.length = 0 ∧
    1 < (wait_for_server none (fun _ => 0) (fun k => decide (3 ≤ k)) 10 0).2.2 := by
  decide

/-- C8 (amended): `wait_for_server` probes the health endpoint once per
attempt and returns true on the first 200 response, having slept 2
seconds after every tenth failed attempt (and after no other attempt);
and when a nonzero overall timeout is exceeded at a loop check before
any 200 response, it returns false. -/
theorem C8_wait_for_server :
    (∀ (elapsed : Nat → Rat) (probe200 : Nat → Bool) (j fuel att : Nat), j < fuel →
      (∀ i, i < j → probe200 (att + i) = false) → probe200 (att + j) = true →
      wait_for_server none elapsed probe200 fuel att =
        (some true,
          List.replicate ((List.range j).countP (fun i => (att + i + 1) % 10 == 0)) 2,
          j + 1)) ∧
    (∀ (elapsed : Nat → Rat) (probe200 : Nat → Bool) (t : Nat), t ≠ 0 →
      ∀ (j fuel att : Nat), j < fuel →
      (∀ i, i < j → probe200 (att + i) = false ∧ ¬ ((t : Rat) < elapsed (att + i))) →
      (t : Rat) < elapsed (att + j) →
      (wait_for_server (some t) elapsed probe200 fuel att).1 = some false) :=
  ⟨fun elapsed probe200 => wait_first_success elapsed probe200,
   fun elapsed probe200 t ht => wait_timeout_elapses elapsed probe200 t ht⟩

/-- C8 witness: a first success at attempt 13 yields one sleep (after
attempt 10) and a true return; a timeout of 5 with an advancing clock
and a dead server yields a false return. -/
theorem C8_witness :
    wait_for_server none (fun _ => 0) (fun k => decide (k = 12)) 20 0 =
      (some true,
        List.replicate ((List.range 12).countP (fun i => (0 + i + 1) % 10 == 0)) 2,
        13) ∧
    (wait_for_server (some 5) (fun k => (k : Rat)) (fun _ => false) 10 0).1 = some false :=
  ⟨C8_wait_for_server.1 (fun _ => 0) (fun k => decide (k = 12)) 12 20 0 (by decide)
      (by decide) (by decide),
   C8_wait_for_server.2 (fun k => (k : Rat)) (fun _ => false) 5 (by decide) 6 10 0
      (by decide) (by decide) (by decide)⟩

/-! ### C10 -/

lemma charToNat_ofNat_valid (n : Nat) (h : n.isValidChar) : (Char.ofNat n).toNat = n := by
  simp only [Char.ofNat, h, dite_true, Char.ofNatAux, Char.toNat, UInt32.toNat]
  simp [BitVec.toNat_ofNatLt]

lemma validChar_of_le (n : Nat) (h : n ≤ 122) : n.isValidChar := by
  left
  omega

lemma charToLower_not_upperRange (c : Char) :
    ¬ (65 ≤ (Char.toLower c).toNat ∧ (Char.toLower c).toNat ≤ 90) := by
  unfold Char.toLower
  by_cases h : 65 ≤ c.toNat ∧ c.toNat ≤ 90
  · simp only [ge_iff_le, h, and_self, if_true]
    rw [charToNat_ofNat_valid _ (validChar_of_le _ (by omega))]
    omega
  · simp only [ge_iff_le]
    rw [if_neg (by omega)]
    omega

lemma charToUpper_eq_upper (x d : Char) (hx : ¬ (65 ≤ x.toNat ∧ x.toNat ≤ 90))
    (hd : 65 ≤ d.toNat ∧ d.toNat ≤ 90) (h : Char.toUpper x = d) : x = Char.toLower d := by
  unfold Char.toUpper at h
  unfold Char.toLower
  rw [if_pos hd]
  by_cases hr : 97 ≤ x.toNat ∧ x.toNat ≤ 122
  · rw [if_pos (by exact ⟨hr.1, hr.2⟩)] at h
    have h2 : x.toNat - 32 = d.toNat := by
      rw [← h, charToNat_ofNat_valid _ (validChar_of_le _ (by omega))]
    have h4 : (Char.ofNat (d.toNat + 32)).toNat = d.toNat + 32 :=
      charToNat_ofNat_valid _ (validChar_of_le _ (by omega))
    apply Char.ext
    apply UInt32.ext
    show x.toNat = (Char.ofNat (d.toNat + 32)).toNat
    omega
  · rw [if_neg (by omega)] at h
    subst h
    exact absurd hd hx

lemma map_toUpper_inv (l : List Char) :
    ∀ (m : List Char), (∀ c ∈ l, ¬ (65 ≤ c.toNat ∧ c.toNat ≤ 90)) →
      (∀ c ∈ m, 65 ≤ c.toNat ∧ c.toNat ≤ 90) →
      l.map Char.toUpper = m → l = m.map Char.toLower := by
  induction l with
  | nil =>
    intro m _ _ h
    rw [List.map_nil] at h
    rw [← h]
    rfl
  | cons c l2 ih =>
    intro m hl hm h
    rw [List.map_cons] at h
    cases m with
    | nil => cases h
    | cons d m2 =>
      injection h with h1 h2
      have hcn := hl c (by simp)
      have hdn := hm d (by simp)
      have hc : c = d.toLower := charToUpper_eq_upper c d hcn hdn h1
      have hrest := ih m2 (fun x hx => hl x (by simp [hx]))
        (fun x hx => hm x (by simp [hx])) h2
      rw [List.map_cons, ← hc, ← hrest]

lemma pyToLower_chars (f : String) :
    ∀ c ∈ (pyToLower f).data, ¬ (65 ≤ c.toNat ∧ c.toNat ≤ 90) := by
  intro c hc
  simp only [pyToLower, List.mem_map] at hc
  obtain ⟨a, _, rfl⟩ := hc
  exact charToLower_not_upperRange a

lemma pyToUpper_eq_target (f t : String)
    (ht : ∀ c ∈ t.data, 65 ≤ c.toNat ∧ c.toNat ≤ 90)
    (h : pyToUpper (pyToLower f) = t) : pyToLower f = ⟨t.data.map Char.toLower⟩ := by
  have hdata : (pyToLower f).data.map Char.toUpper = t.data := by
    have h2 := congrArg String.data h
    simpa [pyToUpper] using h2
  exact String.ext (map_toUpper_inv (pyToLower f).data t.data (pyToLower_chars f) ht hdata)

lemma encodeBranch_stored_jpeg (f : String)
    (h : pyToLower f ∉ (["png", "webp", "bmp", "tiff"] : List String)) :
    encodeBranch (pyToLower f) = .jpeg := by
  have h1 : pyToLower f ≠ "png" := by
    intro hx
    exact h (by simp [hx])
  have h2 : pyToUpper (pyToLower f) ≠ "WEBP" := by
    intro hx
    have he := pyToUpper_eq_target f "WEBP" (by decide) hx
    have he2 : pyToLower f = "webp" := by
      rw [he]
      rfl
    exact h (by simp [he2])
  have h3 : pyToUpper (pyToLower f) ≠ "BMP" := by
    intro hx
    have he := pyToUpper_eq_target f "BMP" (by decide) hx
    have he2 : pyToLower f = "bmp" := by
      rw [he]
      rfl
    exact h (by simp [he2])
  have h4 : pyToUpper (pyToLower f) ≠ "TIFF" := by
    intro hx
    have he := pyToUpper_eq_target f "TIFF" (by decide) hx
    have he2 : pyToLower f = "tiff" := by
      rw [he]
      rfl
    exact h (by simp [he2])
  simp [encodeBranch, h1, h2, h3, h4]

/-- C10: a server-issued format patch carrying any string stores exactly
that string lowercased — the constructor whitelist is not re-run and
`"jpg"` is not normalized to `"jpeg"` — after which the upload mime
type and filename are derived verbatim from the stored string, and any
stored format outside png/webp/bmp/tiff is encoded on the JPEG branch. -/
theorem C10_format_patch (s : AgentState) (p : ConfigPatch) (f : String)
    (hp : p.format = some f) :
    (applyPatch s p).format = pyToLower f ∧
    mimeType (applyPatch s p) = "image/" ++ pyToLower f ∧
    uploadFilename (applyPatch s p) = "frame." ++ pyToLower f ∧
    (pyToLower f ∉ (["png", "webp", "bmp", "tiff"] : List String) →
      encodeBranch (applyPatch s p).format = .jpeg) := by
  have hfmt : (applyPatch s p).format = pyToLower f := by
    simp [applyPatch, hp]
  refine ⟨hfmt, ?_, ?_, ?_⟩
  · rw [mimeType, hfmt]
  · rw [uploadFilename, hfmt]
  · intro h
    rw [hfmt]
    exact encodeBranch_stored_jpeg f h

/-- C10 witness: a patch carrying `"JPG"` stores `"jpg"` (not
`"jpeg"`), the mime type and filename quote it verbatim, and the
stored format is encoded on the JPEG branch. -/
theorem C10_witness :
    (applyPatch sampleAgent { interval := none, format := some "JPG", quality := none }).format
      = "jpg" ∧
    (applyPatch sampleAgent { interval := none, format := some "JPG", quality := none }).format
      ≠ "jpeg" ∧
    mimeType (applyPatch sampleAgent { interval := none, format := some "JPG", quality := none })
      = "image/jpg" ∧
    uploadFilename
        (applyPatch sampleAgent { interval := none, format := some "JPG", quality := none })
      = "frame.jpg" ∧
    encodeBranch
        (applyPatch sampleAgent
          { interval := none, format := some "JPG", quality := none }).format
      = .jpeg := by
  have h := C10_format_patch sampleAgent
    { interval := none, format := some "JPG", quality := none } "JPG" rfl
  refine ⟨h.1.trans (by decide), ?_, h.2.1.trans (by decide), h.2.2.1.trans (by decide),
    h.2.2.2 (by decide)⟩
  rw [h.1.trans (by decide : pyToLower "JPG" = "jpg")]
  decide
